import Mathlib

/-!
Verification of the NEXUS deviation-triggered recalibration core:
the sensor-stream deviation detector (src/sensor_engine.py) and the
adaptive recalibration policy (src/recalibration_engine.py), with the
threshold constants of src/config.py.

Modelling conventions:
- Python floats are embedded as rationals; Python round(x, n) uses
  round-half-to-even, embedded exactly as pyRoundInt below.
- The numpy random generator of simulate_stream is abstracted as a
  function draw : Int -> Rat giving the realized sample at each index;
  every property proved holds for every such function.
- The Gemini enrichment call (call_gemini_json) is abstracted as an
  Except value: error stands for any exception raised inside the
  try-block of AdaptiveRecalibrationEngine._gemini_explanations
  (network failure, invalid JSON, a list response without .get, ...),
  ok carries the parsed JSON object with its two optional keys.
-/

/-- Python round-half-to-even of a rational to an integer, the rounding
used by round() on floats. -/
def pyRoundInt (x : ℚ) : ℤ :=
  let f := ⌊x⌋
  let r := x - f
  if r < 1/2 then f
  else if r > 1/2 then f + 1
  else if f % 2 = 0 then f else f + 1

/-- round(x, 2) from sensor_engine.py / recalibration_engine.py. -/
def round2 (x : ℚ) : ℚ := (pyRoundInt (x * 100) : ℚ) / 100

/-- round(x, 1) used on each simulated reading sbc value. -/
def round1 (x : ℚ) : ℚ := (pyRoundInt (x * 10) : ℚ) / 10

/-- np.mean of a list of values. -/
def np_mean (xs : List ℚ) : ℚ := xs.sum / (xs.length : ℚ)

/-- Python slice xs[-5:] generalized: the last n elements of xs
(all of xs when it is shorter than n). -/
def lastSlice (n : ℕ) (xs : List ℚ) : List ℚ := xs.drop (xs.length - n)

/-- config.py: DEVIATION_CRITICAL = 20.0. -/
def DEVIATION_CRITICAL : ℚ := 20

/-- config.py: DEVIATION_MODERATE = 10.0. -/
def DEVIATION_MODERATE : ℚ := 10

/-- config.py: DEVIATION_MINOR = 5.0. -/
def DEVIATION_MINOR : ℚ := 5

/-- config.py: SENSOR_TOTAL_READINGS = 20. -/
def SENSOR_TOTAL_READINGS : ℤ := 20

/-- config.py: SENSOR_DEVIATION_START = 12. -/
def SENSOR_DEVIATION_START : ℤ := 12

/-- sensor_engine.py SensorReading (timestamp is unused by the core
and omitted). -/
structure SensorReading where
  index : ℤ
  sbc_kNm2 : ℚ
  is_anomaly : Bool
deriving DecidableEq, Repr

/-- sensor_engine.py SensorStreamResult. -/
structure SensorStreamResult where
  readings : List SensorReading
  deviation_detected : Bool
  deviation_percent : ℚ
  alert_level : String
  trigger_recal : Bool
deriving DecidableEq, Repr

/-- The alert-level ladder shared verbatim by simulate_stream
(lines 78-83) and ingest_real_readings (lines 106-111). -/
def alertLevel (deviation_percent : ℚ) : String :=
  if deviation_percent > 20 then "CRITICAL"
  else if deviation_percent > 10 then "WARNING"
  else if deviation_percent > 5 then "WATCH"
  else "NONE"

/-- The index sequence range(1, total + 1) of simulate_stream. -/
def simIndices (total : ℤ) : List ℤ :=
  (List.range total.toNat).map (fun k : ℕ => (k : ℤ) + 1)

/-- The readings built by the loop of simulate_stream: index i carries
round(draw i, 1) and is_anomaly = (i >= deviation_start). -/
def simReadings (deviation_start : ℤ) (draw : ℤ → ℚ) (total : ℤ) :
    List SensorReading :=
  (simIndices total).map
    (fun i => ⟨i, round1 (draw i), decide (deviation_start ≤ i)⟩)

/-- SensorEngine.simulate_stream with the numpy generator abstracted as
draw. deviation_detected is set by the loop exactly when some index is
anomalous; recent_avg averages the last 5 stored (rounded) readings. -/
def simulate_stream (design_sbc : ℚ) (deviation_start total : ℤ)
    (draw : ℤ → ℚ) : SensorStreamResult :=
  let readings := simReadings deviation_start draw total
  let deviation_detected := readings.any (fun r => r.is_anomaly)
  let deviation_percent :=
    round2 (if deviation_detected then
      (design_sbc - np_mean (lastSlice 5 (readings.map (fun r => r.sbc_kNm2))))
        / design_sbc * 100
    else 0)
  { readings := readings
    deviation_detected := deviation_detected
    deviation_percent := deviation_percent
    alert_level := alertLevel deviation_percent
    trigger_recal := decide (deviation_percent > 5) }

/-- SensorEngine.ingest_real_readings. -/
def ingest_real_readings (raw_values : List ℚ) (design_sbc : ℚ) :
    SensorStreamResult :=
  let readings := raw_values.enum.map
    (fun p => SensorReading.mk ((p.1 : ℤ) + 1) p.2 false)
  if raw_values.length < 3 then
    { readings := readings
      deviation_detected := false
      deviation_percent := 0
      alert_level := "NONE"
      trigger_recal := false }
  else
    let recent_avg := np_mean (lastSlice 5 raw_values)
    let deviation_percent := round2 ((design_sbc - recent_avg) / design_sbc * 100)
    { readings := readings
      deviation_detected := decide (deviation_percent > 0)
      deviation_percent := deviation_percent
      alert_level := alertLevel deviation_percent
      trigger_recal := decide (deviation_percent > 5) }

/-- config.py: IS_CODES foundation entry. -/
def IS_CODES_foundation : String := "IS 1080, IS 6403"

/-- config.py: IS_CODES seismic entry. -/
def IS_CODES_seismic : String := "IS 1893 (Part 1)"

/-- recalibration_engine.py RecalibrationPatch. -/
structure RecalibrationPatch where
  deviation_percent : ℚ
  severity : String
  structural_action : String
  add_depth_mm : ℤ
  add_piles : ℤ
  new_risk_band : String
  cost_delta_cr : ℚ
  is_code_reference : String
  gemini_rationale : String
  site_instructions : String
  requires_approval : Bool
deriving DecidableEq, Repr

/-- The parsed JSON object of a successful call_gemini_json call:
result.get(key, default) on a dict is Option.getD on these fields. -/
structure GeminiJson where
  rationale : Option String
  site_instructions : Option String
deriving DecidableEq, Repr

/-- Formatting of a rational as in the Python f-string with :.1f
(round-half-to-even to one decimal place). -/
def fmt1 (x : ℚ) : String :=
  let n := pyRoundInt (x * 10)
  let sgn := if n < 0 ∨ (n = 0 ∧ x < 0) then "-" else ""
  sgn ++ toString (n.natAbs / 10) ++ "." ++ toString (n.natAbs % 10)

/-- The deterministic rationale string of the except-branch of
AdaptiveRecalibrationEngine._gemini_explanations. -/
def fallback_rationale (deviation_percent : ℚ) : String :=
  "A " ++ fmt1 deviation_percent ++
    "% SBC drop reduces the safety factor below acceptable IS code limits. " ++
    "The proposed depth increase and pile addition restore the required bearing capacity per IS 6403. " ++
    "Immediate implementation prevents potential differential settlement and structural distress."

/-- The deterministic site-instructions string of the except-branch of
AdaptiveRecalibrationEngine._gemini_explanations. -/
def fallback_site_instructions (action : String) : String :=
  "Stop all foundation work. Contact the structural engineer. " ++
    "Implement \x27" ++ action ++ "\x27 before resuming."

/-- AdaptiveRecalibrationEngine._gemini_explanations with the external
call abstracted as outcome; severity, project_context and
current_variant only shape the prompt sent to the service, so they do
not appear here. An error outcome covers every exception of the
try-block and lands in the deterministic fallback pair. -/
def gemini_explanations (deviation_percent : ℚ) (action : String)
    (outcome : Except Unit GeminiJson) : String × String :=
  match outcome with
  | Except.ok result =>
      (result.rationale.getD "", result.site_instructions.getD "")
  | Except.error _ =>
      (fallback_rationale deviation_percent,
       fallback_site_instructions action)

/-- The tier data fixed by the three-way branch at the head of
AdaptiveRecalibrationEngine.generate_patch. -/
structure TierSelection where
  severity : String
  add_depth_mm : ℤ
  add_piles : ℤ
  new_risk_band : String
  cost_delta_pct : ℚ
  action : String
deriving DecidableEq, Repr

/-- The base-action branch of generate_patch (lines 56-87): the first
matching threshold fixes severity, depth, piles, risk band, cost
fraction and action text. -/
def select_tier (deviation_percent : ℚ) : TierSelection :=
  if deviation_percent > DEVIATION_CRITICAL then
    { severity := "CRITICAL"
      add_depth_mm := 600
      add_piles := 4
      new_risk_band := "LOW"
      cost_delta_pct := 0.18
      action := "Increase founding depth by 600mm. Add 4 bored cast-in-situ piles per column. Perform additional plate load test per IS 1888." }
  else if deviation_percent > DEVIATION_MODERATE then
    { severity := "MODERATE"
      add_depth_mm := 350
      add_piles := 2
      new_risk_band := "MODERATE"
      cost_delta_pct := 0.09
      action := "Increase founding depth by 350mm. Add 2 piles for load redistribution. Recheck SBC with dynamic cone penetration test." }
  else
    { severity := "MINOR"
      add_depth_mm := 150
      add_piles := 0
      new_risk_band := "LOW-MODERATE"
      cost_delta_pct := 0.03
      action := "Increase reinforcement grade from Fe415 to Fe500. Add 150mm to footing depth as precaution." }

/-- AdaptiveRecalibrationEngine.generate_patch. The budget defaults to
10.0 in the source; here it is always explicit. -/
def generate_patch (deviation_percent : ℚ) (budget_cr : ℚ)
    (outcome : Except Unit GeminiJson) : RecalibrationPatch :=
  let t := select_tier deviation_percent
  let cost_delta := round2 (budget_cr * t.cost_delta_pct)
  let rs := gemini_explanations deviation_percent t.action outcome
  { deviation_percent := round2 deviation_percent
    severity := t.severity
    structural_action := t.action
    add_depth_mm := t.add_depth_mm
    add_piles := t.add_piles
    new_risk_band := t.new_risk_band
    cost_delta_cr := cost_delta
    is_code_reference := IS_CODES_foundation ++ "; " ++ IS_CODES_seismic
    gemini_rationale := rs.1
    site_instructions := rs.2
    requires_approval := decide (t.severity = "CRITICAL" ∨ t.severity = "MODERATE") }

/-- A string of positive length is not the empty string. -/
theorem str_len_pos_ne_empty (s : String) (h : 0 < s.length) : s ≠ "" := by
  intro h2
  rw [h2] at h
  simp at h

/-- round(0.0, 2) is 0. -/
theorem round2_zero : round2 0 = 0 := by
  norm_num [round2, pyRoundInt]

/-- A zero deviation classifies as NONE. -/
theorem alertLevel_zero : alertLevel 0 = "NONE" := by
  norm_num [alertLevel]

/-- The simulated index sequence holds exactly the integers 1..total. -/
theorem mem_simIndices (i t : ℤ) : i ∈ simIndices t ↔ 1 ≤ i ∧ i ≤ t := by
  unfold simIndices
  rw [List.mem_map]
  constructor
  · rintro ⟨k, hk, rfl⟩
    rw [List.mem_range] at hk
    omega
  · rintro ⟨h1, h2⟩
    refine ⟨(i - 1).toNat, ?_, ?_⟩
    · rw [List.mem_range]
      omega
    · omega

/-- When the degradation-start index lies in 1..total, the reading at
index total is anomalous, so the any-fold of the simulated loop is true. -/
theorem simReadings_any_anomaly (ds t : ℤ) (draw : ℤ → ℚ)
    (h1 : 1 ≤ ds) (h2 : ds ≤ t) :
    (simReadings ds draw t).any (fun r => r.is_anomaly) = true := by
  rw [List.any_eq_true]
  refine ⟨⟨t, round1 (draw t), decide (ds ≤ t)⟩, ?_, decide_eq_true h2⟩
  unfold simReadings
  rw [List.mem_map]
  exact ⟨t, (mem_simIndices t t).mpr ⟨by omega, le_refl t⟩, rfl⟩

/-- When the degradation-start index exceeds total, no reading is
anomalous. -/
theorem simReadings_any_anomaly_false (ds t : ℤ) (draw : ℤ → ℚ)
    (h : t < ds) :
    (simReadings ds draw t).any (fun r => r.is_anomaly) = false := by
  rw [List.any_eq_false]
  intro r hr
  unfold simReadings at hr
  rw [List.mem_map] at hr
  obtain ⟨i, hi, rfl⟩ := hr
  rw [mem_simIndices] at hi
  intro hcontra
  have hle : ds ≤ i := of_decide_eq_true hcontra
  omega

/-- C1: for every finite deviation_percent and budget, generate_patch
selects exactly one severity tier and never raises (it is a total
function of its inputs): deviation_percent > 20 gives CRITICAL with
600 mm, 4 piles, risk band LOW, cost fraction 0.18 and
requires_approval; 10 < deviation_percent <= 20 gives MODERATE with
350 mm, 2 piles, risk band MODERATE, fraction 0.09 and
requires_approval; deviation_percent <= 10 (including zero and
negative values) gives MINOR with 150 mm, 0 piles, LOW-MODERATE,
fraction 0.03 and no approval requirement. -/
theorem generate_patch_tier_mapping (d b : ℚ) (o : Except Unit GeminiJson) :
    (d > 20 →
      (generate_patch d b o).severity = "CRITICAL" ∧
      (generate_patch d b o).add_depth_mm = 600 ∧
      (generate_patch d b o).add_piles = 4 ∧
      (generate_patch d b o).new_risk_band = "LOW" ∧
      (generate_patch d b o).cost_delta_cr = round2 (b * 0.18) ∧
      (generate_patch d b o).requires_approval = true) ∧
    (10 < d ∧ d ≤ 20 →
      (generate_patch d b o).severity = "MODERATE" ∧
      (generate_patch d b o).add_depth_mm = 350 ∧
      (generate_patch d b o).add_piles = 2 ∧
      (generate_patch d b o).new_risk_band = "MODERATE" ∧
      (generate_patch d b o).cost_delta_cr = round2 (b * 0.09) ∧
      (generate_patch d b o).requires_approval = true) ∧
    (d ≤ 10 →
      (generate_patch d b o).severity = "MINOR" ∧
      (generate_patch d b o).add_depth_mm = 150 ∧
      (generate_patch d b o).add_piles = 0 ∧
      (generate_patch d b o).new_risk_band = "LOW-MODERATE" ∧
      (generate_patch d b o).cost_delta_cr = round2 (b * 0.03) ∧
      (generate_patch d b o).requires_approval = false) := by
  refine ⟨?_, ?_, ?_⟩
  · intro h
    have hc : d > DEVIATION_CRITICAL := by rw [DEVIATION_CRITICAL]; exact h
    simp [generate_patch, select_tier, if_pos hc]
  · rintro ⟨h1, h2⟩
    have hc : ¬ d > DEVIATION_CRITICAL := by rw [DEVIATION_CRITICAL]; linarith
    have hm : d > DEVIATION_MODERATE := by rw [DEVIATION_MODERATE]; exact h1
    simp [generate_patch, select_tier, if_neg hc, if_pos hm]
  · intro h
    have hc : ¬ d > DEVIATION_CRITICAL := by rw [DEVIATION_CRITICAL]; linarith
    have hm : ¬ d > DEVIATION_MODERATE := by rw [DEVIATION_MODERATE]; linarith
    simp [generate_patch, select_tier, if_neg hc, if_neg hm]

/-- Witness for C1: the CRITICAL tier at deviation 25, the MODERATE
tier at 15 and the MINOR tier at the negative deviation -3, each with
budget 10 and a failed enrichment outcome. -/
theorem generate_patch_tier_mapping_witness :
    (25 : ℚ) > 20 ∧
    (generate_patch 25 10 (Except.error ())).severity = "CRITICAL" ∧
    (generate_patch 25 10 (Except.error ())).add_depth_mm = 600 ∧
    (generate_patch 25 10 (Except.error ())).requires_approval = true ∧
    (10 < (15 : ℚ) ∧ (15 : ℚ) ≤ 20) ∧
    (generate_patch 15 10 (Except.error ())).severity = "MODERATE" ∧
    (generate_patch 15 10 (Except.error ())).add_piles = 2 ∧
    ((-3 : ℚ) ≤ 10) ∧
    (generate_patch (-3) 10 (Except.error ())).severity = "MINOR" ∧
    (generate_patch (-3) 10 (Except.error ())).requires_approval = false :=
  ⟨by norm_num,
   ((generate_patch_tier_mapping 25 10 (Except.error ())).1 (by norm_num)).1,
   ((generate_patch_tier_mapping 25 10 (Except.error ())).1 (by norm_num)).2.1,
   ((generate_patch_tier_mapping 25 10 (Except.error ())).1 (by norm_num)).2.2.2.2.2,
   by norm_num,
   ((generate_patch_tier_mapping 15 10 (Except.error ())).2.1 (by norm_num)).1,
   ((generate_patch_tier_mapping 15 10 (Except.error ())).2.1 (by norm_num)).2.2.1,
   by norm_num,
   ((generate_patch_tier_mapping (-3) 10 (Except.error ())).2.2 (by norm_num)).1,
   ((generate_patch_tier_mapping (-3) 10 (Except.error ())).2.2 (by norm_num)).2.2.2.2.2⟩

/-- C2: the alert classification used by both entry paths assigns
exactly one of NONE, WATCH, WARNING, CRITICAL by strict greater-than
comparisons evaluated highest-first, with the boundary values 5, 10
and 20 falling into the lower band; both simulate_stream and
ingest_real_readings label their result with this classification of
their own deviation_percent. -/
theorem alert_level_band_partition (d : ℚ) (raw : List ℚ) (B Bs : ℚ)
    (ds t : ℤ) (draw : ℤ → ℚ) :
    ((alertLevel d = "CRITICAL" ↔ d > 20) ∧
     (alertLevel d = "WARNING" ↔ 10 < d ∧ d ≤ 20) ∧
     (alertLevel d = "WATCH" ↔ 5 < d ∧ d ≤ 10) ∧
     (alertLevel d = "NONE" ↔ d ≤ 5)) ∧
    (ingest_real_readings raw B).alert_level
      = alertLevel (ingest_real_readings raw B).deviation_percent ∧
    (simulate_stream Bs ds t draw).alert_level
      = alertLevel (simulate_stream Bs ds t draw).deviation_percent := by
  refine ⟨?_, ?_, ?_⟩
  · unfold alertLevel
    split_ifs with h1 h2 h3 <;>
      refine ⟨⟨fun hs => ?_, fun hv => ?_⟩, ⟨fun hs => ?_, fun hv => ?_⟩,
              ⟨fun hs => ?_, fun hv => ?_⟩, ⟨fun hs => ?_, fun hv => ?_⟩⟩ <;>
      first
        | rfl
        | linarith
        | exact absurd hs (by decide)
        | exact ⟨by linarith, by linarith⟩
  · simp only [ingest_real_readings]
    split_ifs with h
    · exact alertLevel_zero.symm
    · rfl
  · rfl

/-- C3: whenever the averaging step is reached (raw path with at least
3 samples and a nonzero baseline; simulated path with a nonzero
baseline and degradation start S with 1 <= S <= N), deviation_percent
is (B - recent_avg) / B * 100 rounded to 2 decimals, where recent_avg
is the mean of the last 5 stored readings (all of them when fewer than
5 exist); concretely, raw readings [180,179,181,178,180] against
baseline 180 give recent_avg 179.6, deviation 0.22, alert NONE and no
recalibration trigger. -/
theorem deviation_recent_average_window (raw : List ℚ) (B Bs : ℚ)
    (ds t : ℤ) (draw : ℤ → ℚ) :
    (B ≠ 0 → 3 ≤ raw.length →
      (ingest_real_readings raw B).deviation_percent
        = round2 ((B - np_mean (lastSlice 5 raw)) / B * 100)) ∧
    (raw.length ≤ 5 → lastSlice 5 raw = raw) ∧
    (Bs ≠ 0 → 1 ≤ ds → ds ≤ t →
      (simulate_stream Bs ds t draw).deviation_percent
        = round2 ((Bs - np_mean (lastSlice 5
            ((simReadings ds draw t).map (fun r => r.sbc_kNm2)))) / Bs * 100)) ∧
    np_mean (lastSlice 5 [180, 179, 181, 178, 180]) = 179.6 ∧
    (ingest_real_readings [180, 179, 181, 178, 180] 180).deviation_percent = 0.22 ∧
    (ingest_real_readings [180, 179, 181, 178, 180] 180).alert_level = "NONE" ∧
    (ingest_real_readings [180, 179, 181, 178, 180] 180).trigger_recal = false := by
  refine ⟨?_, ?_, ?_, ?_, ?_, ?_, ?_⟩
  · intro hB h3
    simp only [ingest_real_readings]
    rw [if_neg (by omega)]
  · intro h5
    unfold lastSlice
    rw [Nat.sub_eq_zero_of_le h5, List.drop_zero]
  · intro hBs h1 h2
    simp only [simulate_stream]
    rw [simReadings_any_anomaly ds t draw h1 h2]
    simp
  · norm_num [np_mean, lastSlice]
  · norm_num [ingest_real_readings, np_mean, lastSlice, round2, pyRoundInt]
  · norm_num [ingest_real_readings, np_mean, lastSlice, round2, pyRoundInt, alertLevel]
  · norm_num [ingest_real_readings, np_mean, lastSlice, round2, pyRoundInt]

/-- Witness for C3: the raw path at the NONE scenario list with
baseline 180, and the simulated path at baseline 180, degradation
start 12 and 20 readings. -/
theorem deviation_recent_average_window_witness :
    ((180 : ℚ) ≠ 0 ∧ 3 ≤ ([180, 179, 181, 178, 180] : List ℚ).length ∧
      (ingest_real_readings [180, 179, 181, 178, 180] 180).deviation_percent
        = round2 ((180 - np_mean (lastSlice 5 [180, 179, 181, 178, 180])) / 180 * 100)) ∧
    (([180, 179, 181, 178, 180] : List ℚ).length ≤ 5 ∧
      lastSlice 5 [180, 179, 181, 178, 180] = [180, 179, 181, 178, 180]) ∧
    ((180 : ℚ) ≠ 0 ∧ (1 : ℤ) ≤ 12 ∧ (12 : ℤ) ≤ 20 ∧
      (simulate_stream 180 12 20 (fun _ => 0)).deviation_percent
        = round2 ((180 - np_mean (lastSlice 5
            ((simReadings 12 (fun _ => 0) 20).map (fun r => r.sbc_kNm2)))) / 180 * 100)) :=
  ⟨⟨by norm_num, by norm_num,
    (deviation_recent_average_window [180, 179, 181, 178, 180] 180 180 12 20
      (fun _ => 0)).1 (by norm_num) (by norm_num)⟩,
   ⟨by norm_num,
    (deviation_recent_average_window [180, 179, 181, 178, 180] 180 180 12 20
      (fun _ => 0)).2.1 (by norm_num)⟩,
   ⟨by norm_num, by norm_num, by norm_num,
    (deviation_recent_average_window [180, 179, 181, 178, 180] 180 180 12 20
      (fun _ => 0)).2.2.1 (by norm_num) (by norm_num) (by norm_num)⟩⟩

/-- C4: for both entry paths, trigger_recalibration holds exactly when
deviation_percent exceeds 5.0; the fewer-than-3-samples branch of the
raw path is covered since it reports deviation 0 and no trigger. -/
theorem trigger_iff_deviation_over_five (raw : List ℚ) (B Bs : ℚ)
    (ds t : ℤ) (draw : ℤ → ℚ) :
    ((ingest_real_readings raw B).trigger_recal = true ↔
      (ingest_real_readings raw B).deviation_percent > 5) ∧
    ((simulate_stream Bs ds t draw).trigger_recal = true ↔
      (simulate_stream Bs ds t draw).deviation_percent > 5) := by
  constructor
  · simp only [ingest_real_readings]
    split_ifs with h
    · simp
    · simp [decide_eq_true_eq]
  · simp [simulate_stream, decide_eq_true_eq]

/-- C5 counterexample: on raw readings [180,150,148,151,149] against
baseline 180 the code averages the last five values to 155.6, not the
149.6 the claim states, and reports deviation_percent 13.56, not
approximately 16.89. -/
theorem warning_scenario_spec_values_refuted :
    np_mean (lastSlice 5 [180, 150, 148, 151, 149]) = 155.6 ∧
    (155.6 : ℚ) ≠ 149.6 ∧
    (ingest_real_readings [180, 150, 148, 151, 149] 180).deviation_percent = 13.56 ∧
    (13.56 : ℚ) ≠ 16.89 := by
  refine ⟨by norm_num [np_mean, lastSlice], by norm_num, ?_, by norm_num⟩
  norm_num [ingest_real_readings, np_mean, lastSlice, round2, pyRoundInt]

/-- C5 amended: on raw readings [180,150,148,151,149] against baseline
180 the detector returns recent_avg 155.6 and deviation_percent 13.56,
with alert level WARNING and the recalibration trigger set; feeding
either the claimed 16.89 or the actual 13.56 into the policy yields
severity MODERATE with 350 mm added depth and 2 added piles. -/
theorem warning_scenario_code_values (b : ℚ) (o : Except Unit GeminiJson) :
    np_mean (lastSlice 5 [180, 150, 148, 151, 149]) = 155.6 ∧
    (ingest_real_readings [180, 150, 148, 151, 149] 180).deviation_percent = 13.56 ∧
    (ingest_real_readings [180, 150, 148, 151, 149] 180).alert_level = "WARNING" ∧
    (ingest_real_readings [180, 150, 148, 151, 149] 180).trigger_recal = true ∧
    (generate_patch 16.89 b o).severity = "MODERATE" ∧
    (generate_patch 16.89 b o).add_depth_mm = 350 ∧
    (generate_patch 16.89 b o).add_piles = 2 ∧
    (generate_patch 13.56 b o).severity = "MODERATE" ∧
    (generate_patch 13.56 b o).add_depth_mm = 350 ∧
    (generate_patch 13.56 b o).add_piles = 2 := by
  refine ⟨by norm_num [np_mean, lastSlice], ?_, ?_, ?_, ?_, ?_, ?_, ?_, ?_, ?_⟩ <;>
    norm_num [ingest_real_readings, np_mean, lastSlice, round2, pyRoundInt, alertLevel,
      generate_patch, select_tier, DEVIATION_CRITICAL, DEVIATION_MODERATE]

/-- C6: the raw-value path with fewer than 3 entries reports no
deviation, deviation_percent 0, alert NONE and no trigger, whatever
the values and baseline are. -/
theorem short_raw_sequence_no_deviation (raw : List ℚ) (B : ℚ)
    (h : raw.length < 3) :
    (ingest_real_readings raw B).deviation_detected = false ∧
    (ingest_real_readings raw B).deviation_percent = 0 ∧
    (ingest_real_readings raw B).alert_level = "NONE" ∧
    (ingest_real_readings raw B).trigger_recal = false := by
  simp only [ingest_real_readings]
  rw [if_pos h]
  exact ⟨rfl, rfl, rfl, rfl⟩

/-- Witness for C6: two wildly deviating samples still yield the
no-deviation result. -/
theorem short_raw_sequence_no_deviation_witness :
    ([1000, 2000] : List ℚ).length < 3 ∧
    (ingest_real_readings [1000, 2000] 5).deviation_detected = false ∧
    (ingest_real_readings [1000, 2000] 5).deviation_percent = 0 ∧
    (ingest_real_readings [1000, 2000] 5).alert_level = "NONE" ∧
    (ingest_real_readings [1000, 2000] 5).trigger_recal = false :=
  ⟨by norm_num,
   (short_raw_sequence_no_deviation [1000, 2000] 5 (by norm_num)).1,
   (short_raw_sequence_no_deviation [1000, 2000] 5 (by norm_num)).2.1,
   (short_raw_sequence_no_deviation [1000, 2000] 5 (by norm_num)).2.2.1,
   (short_raw_sequence_no_deviation [1000, 2000] 5 (by norm_num)).2.2.2⟩

/-- C7: in every result of either entry path, a set recalibration
trigger implies the deviation_detected flag. -/
theorem trigger_implies_detected (raw : List ℚ) (B Bs : ℚ) (ds t : ℤ)
    (draw : ℤ → ℚ) :
    ((ingest_real_readings raw B).trigger_recal = true →
      (ingest_real_readings raw B).deviation_detected = true) ∧
    ((simulate_stream Bs ds t draw).trigger_recal = true →
      (simulate_stream Bs ds t draw).deviation_detected = true) := by
  constructor
  · simp only [ingest_real_readings]
    split_ifs with h
    · simp
    · simp only [decide_eq_true_eq]
      intro h5
      linarith
  · intro htr
    by_cases hdd : (simReadings ds draw t).any (fun r => r.is_anomaly) = true
    · simp only [simulate_stream]
      exact hdd
    · exfalso
      rw [Bool.not_eq_true] at hdd
      simp only [simulate_stream, hdd, decide_eq_true_eq] at htr
      have hif : (if (false = true) then
          (Bs - np_mean (lastSlice 5 (List.map (fun r => r.sbc_kNm2)
            (simReadings ds draw t)))) / Bs * 100 else 0) = 0 := by simp
      rw [hif, round2_zero] at htr
      norm_num at htr

/-- Witness for C7: the raw WARNING scenario has the trigger set, and
the invariant then forces deviation_detected. -/
theorem trigger_implies_detected_witness :
    (ingest_real_readings [180, 150, 148, 151, 149] 180).trigger_recal = true ∧
    (ingest_real_readings [180, 150, 148, 151, 149] 180).deviation_detected = true :=
  ⟨by norm_num [ingest_real_readings, np_mean, lastSlice, round2, pyRoundInt],
   (trigger_implies_detected [180, 150, 148, 151, 149] 180 180 12 20 (fun _ => 0)).1
     (by norm_num [ingest_real_readings, np_mean, lastSlice, round2, pyRoundInt])⟩

/-- C8: when the enrichment call fails with any exception,
generate_patch still returns a patch whose numeric fields follow the
tier mapping and whose rationale and site-instructions fields are the
non-empty deterministic fallback strings; no failure propagates since
generate_patch is total. -/
theorem enrichment_failure_fallback (d b : ℚ) :
    (generate_patch d b (Except.error ())).gemini_rationale = fallback_rationale d ∧
    (generate_patch d b (Except.error ())).gemini_rationale ≠ "" ∧
    (generate_patch d b (Except.error ())).site_instructions
      = fallback_site_instructions (select_tier d).action ∧
    (generate_patch d b (Except.error ())).site_instructions ≠ "" ∧
    (d > 20 →
      (generate_patch d b (Except.error ())).severity = "CRITICAL" ∧
      (generate_patch d b (Except.error ())).add_depth_mm = 600 ∧
      (generate_patch d b (Except.error ())).add_piles = 4 ∧
      (generate_patch d b (Except.error ())).new_risk_band = "LOW" ∧
      (generate_patch d b (Except.error ())).cost_delta_cr = round2 (b * 0.18) ∧
      (generate_patch d b (Except.error ())).requires_approval = true) ∧
    (10 < d ∧ d ≤ 20 →
      (generate_patch d b (Except.error ())).severity = "MODERATE" ∧
      (generate_patch d b (Except.error ())).add_depth_mm = 350 ∧
      (generate_patch d b (Except.error ())).add_piles = 2 ∧
      (generate_patch d b (Except.error ())).new_risk_band = "MODERATE" ∧
      (generate_patch d b (Except.error ())).cost_delta_cr = round2 (b * 0.09) ∧
      (generate_patch d b (Except.error ())).requires_approval = true) ∧
    (d ≤ 10 →
      (generate_patch d b (Except.error ())).severity = "MINOR" ∧
      (generate_patch d b (Except.error ())).add_depth_mm = 150 ∧
      (generate_patch d b (Except.error ())).add_piles = 0 ∧
      (generate_patch d b (Except.error ())).new_risk_band = "LOW-MODERATE" ∧
      (generate_patch d b (Except.error ())).cost_delta_cr = round2 (b * 0.03) ∧
      (generate_patch d b (Except.error ())).requires_approval = false) := by
  refine ⟨rfl, ?_, rfl, ?_, ?_, ?_, ?_⟩
  · show fallback_rationale d ≠ ""
    apply str_len_pos_ne_empty
    have hA : ("A " : String).length = 2 := rfl
    simp only [fallback_rationale, String.length_append, hA]
    omega
  · show fallback_site_instructions (select_tier d).action ≠ ""
    apply str_len_pos_ne_empty
    have hS : ("Stop all foundation work. Contact the structural engineer. " : String).length = 59 := rfl
    simp only [fallback_site_instructions, String.length_append, hS]
    omega
  · intro h
    have hc : d > DEVIATION_CRITICAL := by rw [DEVIATION_CRITICAL]; exact h
    simp [generate_patch, select_tier, if_pos hc]
  · rintro ⟨h1, h2⟩
    have hc : ¬ d > DEVIATION_CRITICAL := by rw [DEVIATION_CRITICAL]; linarith
    have hm : d > DEVIATION_MODERATE := by rw [DEVIATION_MODERATE]; exact h1
    simp [generate_patch, select_tier, if_neg hc, if_pos hm]
  · intro h
    have hc : ¬ d > DEVIATION_CRITICAL := by rw [DEVIATION_CRITICAL]; linarith
    have hm : ¬ d > DEVIATION_MODERATE := by rw [DEVIATION_MODERATE]; linarith
    simp [generate_patch, select_tier, if_neg hc, if_neg hm]

/-- Witness for C8: a failed enrichment at deviation 25 and budget 10
still yields the full CRITICAL patch with the fallback rationale. -/
theorem enrichment_failure_fallback_witness :
    (generate_patch 25 10 (Except.error ())).gemini_rationale = fallback_rationale 25 ∧
    (generate_patch 25 10 (Except.error ())).gemini_rationale ≠ "" ∧
    (generate_patch 25 10 (Except.error ())).site_instructions ≠ "" ∧
    (25 : ℚ) > 20 ∧
    (generate_patch 25 10 (Except.error ())).severity = "CRITICAL" ∧
    (generate_patch 25 10 (Except.error ())).cost_delta_cr = round2 (10 * 0.18) :=
  ⟨(enrichment_failure_fallback 25 10).1,
   (enrichment_failure_fallback 25 10).2.1,
   (enrichment_failure_fallback 25 10).2.2.2.1,
   by norm_num,
   ((enrichment_failure_fallback 25 10).2.2.2.2.1 (by norm_num)).1,
   ((enrichment_failure_fallback 25 10).2.2.2.2.1 (by norm_num)).2.2.2.2.1⟩

/-- C9 counterexample: the generator performs no fail-fast validation;
with the invalid total-reading count 0 (baseline 180, start index 12)
simulate_stream still returns a normal StreamResult with empty
readings, no deviation, alert NONE and no trigger, instead of failing
before computation. -/
theorem invalid_total_returns_result :
    (simulate_stream 180 12 0 (fun _ => 0)).readings = [] ∧
    (simulate_stream 180 12 0 (fun _ => 0)).deviation_detected = false ∧
    (simulate_stream 180 12 0 (fun _ => 0)).deviation_percent = 0 ∧
    (simulate_stream 180 12 0 (fun _ => 0)).alert_level = "NONE" ∧
    (simulate_stream 180 12 0 (fun _ => 0)).trigger_recal = false := by
  norm_num [simulate_stream, simReadings, simIndices, round2, pyRoundInt, alertLevel]

/-- C9 amended: simulate_stream validates nothing: a non-positive
total-reading count yields a StreamResult with empty readings, no
deviation, alert NONE and no trigger, and a degradation-start index
greater than total yields a StreamResult with deviation_detected false
and no trigger; no invalid input makes the generator fail fast. -/
theorem simulate_no_input_validation (B : ℚ) (ds t : ℤ) (draw : ℤ → ℚ) :
    (t ≤ 0 →
      (simulate_stream B ds t draw).readings = [] ∧
      (simulate_stream B ds t draw).deviation_detected = false ∧
      (simulate_stream B ds t draw).deviation_percent = 0 ∧
      (simulate_stream B ds t draw).alert_level = "NONE" ∧
      (simulate_stream B ds t draw).trigger_recal = false) ∧
    (t < ds →
      (simulate_stream B ds t draw).deviation_detected = false ∧
      (simulate_stream B ds t draw).trigger_recal = false) := by
  constructor
  · intro ht
    have h0 : t.toNat = 0 := by omega
    have hempty : simIndices t = [] := by
      unfold simIndices
      rw [h0]
      rfl
    simp [simulate_stream, simReadings, hempty, round2_zero, alertLevel_zero]
  · intro hlt
    have hfalse := simReadings_any_anomaly_false ds t draw hlt
    simp [simulate_stream, hfalse, round2_zero]

/-- Witness for C9 amended: total 0 gives the empty normal result, and
total 5 with start index 12 gives an undetected, untriggered result. -/
theorem simulate_no_input_validation_witness :
    ((0 : ℤ) ≤ 0 ∧
      (simulate_stream 180 12 0 (fun _ => 90)).readings = [] ∧
      (simulate_stream 180 12 0 (fun _ => 90)).alert_level = "NONE") ∧
    ((5 : ℤ) < 12 ∧
      (simulate_stream 180 12 5 (fun _ => 90)).deviation_detected = false ∧
      (simulate_stream 180 12 5 (fun _ => 90)).trigger_recal = false) :=
  ⟨⟨by norm_num,
    ((simulate_no_input_validation 180 12 0 (fun _ => 90)).1 (by norm_num)).1,
    ((simulate_no_input_validation 180 12 0 (fun _ => 90)).1 (by norm_num)).2.2.2.1⟩,
   ⟨by norm_num,
    ((simulate_no_input_validation 180 12 5 (fun _ => 90)).2 (by norm_num)).1,
    ((simulate_no_input_validation 180 12 5 (fun _ => 90)).2 (by norm_num)).2⟩⟩

/-- C10: when the enrichment call succeeds but the parsed JSON object
lacks the rationale or site_instructions key, generate_patch stores
the empty string in the corresponding field rather than the fallback
text, so an empty-field patch is reachable without a service failure. -/
theorem missing_keys_give_empty_strings (d b : ℚ) :
    (generate_patch d b (Except.ok ⟨none, none⟩)).gemini_rationale = "" ∧
    (generate_patch d b (Except.ok ⟨none, none⟩)).site_instructions = "" :=
  ⟨rfl, rfl⟩
